import Mathlib

/-!
Verification of the online-cinema backend (FastAPI + SQLAlchemy) against its
design specification.  The relational state is embedded as lists of rows; each
route handler from `app/routes/` becomes a pure function from the database
state (plus the request parameters and the results of external collaborators
such as the JWT manager and the Stripe SDK, which are passed in as explicit
arguments) to a new state and/or an outcome.

An outcome is either an `HTTPException` (status code and detail string, as
raised by the handlers) or an uncaught Python `AttributeError` — several
handlers reference attributes that do not exist (`fastapi.status` shadowed by
a query parameter, or the nonexistent `status.HTTP_404_BAD_REQUEST`), which
surfaces as an HTTP 500 instead of the intended structured error.
-/

namespace OnlineCinema

/-- Order status enum from `app/models/order.py` (`StatusEnum`):
pending / paid / canceled. -/
inductive OrderStatus where
  | pending
  | paid
  | canceled
deriving DecidableEq, Repr

/-- Payment status enum from `app/models/payments.py` (`StatusEnum`):
successful / canceled / refunded.  Note there is no `pending` member. -/
inductive PaymentStatus where
  | successful
  | canceled
  | refunded
deriving DecidableEq, Repr

/-- Row of the `movies` table (the fields the order/cart/payment workflow
reads).  `price` is a DECIMAL(10,2); we model it in minor units as a `Nat`. -/
structure Movie where
  id : Nat
  name : String
  price : Nat
deriving DecidableEq, Repr

/-- Row of the `users` table (fields read by the accounts routes). -/
structure User where
  id : Nat
  email : String
  hashed_password : String
  is_active : Bool
deriving DecidableEq, Repr

/-- Row of the `carts` table: one cart per user. -/
structure Cart where
  id : Nat
  user_id : Nat
deriving DecidableEq, Repr

/-- Row of the `cart_items` table. -/
structure CartItem where
  cart_id : Nat
  movie_id : Nat
deriving DecidableEq, Repr

/-- Row of the `orders` table.  `created_at` is modelled as a `Nat` timestamp. -/
structure Order where
  id : Nat
  user_id : Nat
  created_at : Nat
  status : OrderStatus
  total_amount : Nat
deriving DecidableEq, Repr

/-- Row of the `order_items` table: snapshots `price_at_order`. -/
structure OrderItem where
  id : Nat
  order_id : Nat
  movie_id : Nat
  price_at_order : Nat
deriving DecidableEq, Repr

/-- Row of the `payments` table. -/
structure Payment where
  id : Nat
  user_id : Nat
  order_id : Nat
  created_at : Nat
  status : PaymentStatus
  amount : Nat
  external_payment_id : String
deriving DecidableEq, Repr

/-- Row of the `payment_items` table: snapshots `price_at_payment`. -/
structure PaymentItem where
  payment_id : Nat
  order_item_id : Nat
  price_at_payment : Nat
deriving DecidableEq, Repr

/-- Row of the `refresh_tokens` table. -/
structure RefreshToken where
  user_id : Nat
  token : String
deriving DecidableEq, Repr

/-- Row of the `password_reset_tokens` table. -/
structure PasswordResetToken where
  user_id : Nat
  token : String
  expires_at : Nat
deriving DecidableEq, Repr

/-- The relational database state. -/
structure DB where
  users : List User
  movies : List Movie
  carts : List Cart
  cart_items : List CartItem
  orders : List Order
  order_items : List OrderItem
  payments : List Payment
  payment_items : List PaymentItem
  refresh_tokens : List RefreshToken
  password_reset_tokens : List PasswordResetToken
deriving DecidableEq, Repr

/-- Outcome of a failed handler: either an `HTTPException(status_code, detail)`
raised by the handler, or an uncaught Python `AttributeError` (which FastAPI
turns into an HTTP 500 response). -/
inductive PyError where
  | httpError (status_code : Nat) (detail : String)
  | attributeError (attr : String)
deriving DecidableEq, Repr

/-- Result of the JWT manager's decode call, passed into the handlers that
invoke it: either the decode raised (bad signature / malformed / expired), or
it returned a claims payload whose `user_id` claim may be absent. -/
inductive DecodeResult where
  | failure
  | payload (user_id : Option Nat)
deriving DecidableEq, Repr

/-- Result of `stripe.PaymentIntent.create`, passed into `create_payments`:
the two caught exception classes, or a created intent with its opaque id. -/
inductive StripeResult where
  | invalidRequestError
  | stripeError
  | intent (id : String)
deriving DecidableEq, Repr

/-- Lookup of a movie row by primary key (the `item.movie` relationship and
the `select(MovieModel).where(MovieModel.id == movie_id)` queries). -/
def find_movie (db : DB) (movie_id : Nat) : Option Movie :=
  db.movies.find? (fun m => m.id == movie_id)

/-- Price of a movie by id; total-function version used after the existence
checks of `create_order` have passed (the 0 default is unreachable there). -/
def movie_price (db : DB) (movie_id : Nat) : Nat :=
  match find_movie db movie_id with
  | some m => m.price
  | none => 0

/-- The `select(OrderItemModel).join(OrdersModel)` query of `create_order`:
does the user have an order of the given status containing the movie. -/
def has_order_item_with_status (db : DB) (user_id movie_id : Nat)
    (st : OrderStatus) : Bool :=
  db.order_items.any (fun oi =>
    oi.movie_id == movie_id &&
    db.orders.any (fun o =>
      o.id == oi.order_id && o.user_id == user_id && decide (o.status = st)))

/-- The purchase-check query of `add_cart_item` (`app/routes/cart.py`): it
joins order items to the user's orders with NO filter on the order status. -/
def user_has_order_with_movie (db : DB) (user_id movie_id : Nat) : Bool :=
  db.order_items.any (fun oi =>
    oi.movie_id == movie_id &&
    db.orders.any (fun o => o.id == oi.order_id && o.user_id == user_id))

/-- Mutation of the first order matching `(order_id, user_id)` — the ORM row
returned by `.scalars().first()` whose `status` field the handler assigns. -/
def set_order_status (orders : List Order) (order_id user_id : Nat)
    (st : OrderStatus) : List Order :=
  match orders with
  | [] => []
  | o :: rest =>
    if o.id == order_id && o.user_id == user_id then
      { o with status := st } :: rest
    else
      o :: set_order_status rest order_id user_id st

/-- Stand-in for the one-way password hash of `app/security/password.py`
(delegated to a standard library; only used abstractly). -/
def hash_password (raw : String) : String :=
  "$pbkdf2$" ++ raw

/-- `UserModel.verify_password`: compares the stored hash with the hash of the
offered password. -/
def verify_password (raw hashed : String) : Bool :=
  hashed == hash_password raw

/-- Stand-in for `jwt_manager.create_access_token({"user_id": user_id})`. -/
def create_access_token (user_id : Nat) : String :=
  "access-" ++ toString user_id

/-- Mutation of the first user matching `id` — assignment to the ORM row's
password attribute in `change_password` / `reset_password`. -/
def set_user_password (users : List User) (user_id : Nat)
    (new_hash : String) : List User :=
  match users with
  | [] => []
  | u :: rest =>
    if u.id == user_id then
      { u with hashed_password := new_hash } :: rest
    else
      u :: set_user_password rest user_id new_hash

/-- Deletion of the reset-token row found by
`select(PasswordResetTokenModel).filter_by(user_id=user.id)` (the first match). -/
def delete_reset_token (tokens : List PasswordResetToken)
    (user_id : Nat) : List PasswordResetToken :=
  match tokens with
  | [] => []
  | t :: rest =>
    if t.user_id == user_id then rest
    else t :: delete_reset_token rest user_id

/-- The catalog price-update write (movie update endpoint): assigns a new
price to the first movie row with the given id; touches only `movies`. -/
def update_movie_price (db : DB) (movie_id new_price : Nat) : DB :=
  { db with
    movies := db.movies.map (fun m =>
      if m.id == movie_id then { m with price := new_price } else m) }

/-! Route handlers, translated from `app/routes/`. -/

/-- Helper of `stripe_webhook` (`app/routes/payments.py`,
`update_payment_status`): looks up the first payment whose
`external_payment_id` matches and sets its status; silently does nothing when
no payment matches. -/
def update_payment_status (payments : List Payment) (status : PaymentStatus)
    (external_id : String) : List Payment :=
  match payments with
  | [] => []
  | p :: rest =>
    if p.external_payment_id == external_id then
      { p with status := status } :: rest
    else
      p :: update_payment_status rest status external_id

/-- A Stripe webhook event after signature verification: its `type` and
`event["data"]["object"]["id"]` (the external payment id). -/
structure StripeEvent where
  type : String
  object_id : String
deriving DecidableEq, Repr

/-- The `stripe_webhook` handler after `construct_event` succeeded: routes the
three recognised event types to `update_payment_status` and ignores everything
else.  The success branch additionally enqueues a notification email, which
does not touch the payments table, so the handler's effect on the state is
exactly this.  The handler returns success in every branch, matched or not. -/
def stripe_webhook (payments : List Payment) (event : StripeEvent) :
    List Payment :=
  if event.type == "payment_intent.succeeded" then
    update_payment_status payments PaymentStatus.successful event.object_id
  else if event.type == "payment_intent.payment_failed" then
    update_payment_status payments PaymentStatus.canceled event.object_id
  else if event.type == "charge.refunded" then
    update_payment_status payments PaymentStatus.refunded event.object_id
  else
    payments

/-- Per-item validation loop body of `create_order` (`app/routes/order.py`):
404 when the referenced movie no longer exists, 400 when the movie is in one
of the user's paid orders, 400 when it is in one of the user's pending orders. -/
def check_cart_item (db : DB) (user_id : Nat) (ci : CartItem) :
    Option PyError :=
  match find_movie db ci.movie_id with
  | none => some (.httpError 404 "Movie no longer exists")
  | some _ =>
    if has_order_item_with_status db user_id ci.movie_id OrderStatus.paid then
      some (.httpError 400 "Movie already purchased")
    else if has_order_item_with_status db user_id ci.movie_id
        OrderStatus.pending then
      some (.httpError 400 "Movie is already in a pending order")
    else
      none

/-- The `for item in cart.items` loop of `create_order`: first failing check
wins. -/
def check_cart_items (db : DB) (user_id : Nat) :
    List CartItem → Option PyError
  | [] => none
  | ci :: rest =>
    match check_cart_item db user_id ci with
    | some e => some e
    | none => check_cart_items db user_id rest

/-- The `create_order` handler (`app/routes/order.py`): requires a non-empty
cart, validates every cart item, then in one transaction sums the current
movie prices into `total_amount`, inserts the order (status defaults to
pending) and one order item per cart item snapshotting `price_at_order`, and
deletes the cart items (the cart row itself persists).  `fresh_order_id`,
`fresh_item_id` and `now` stand for the database-assigned primary keys and
`server_default=func.now()`. -/
def create_order (db : DB) (user_id fresh_order_id fresh_item_id now : Nat) :
    Except PyError (DB × Order) :=
  match db.carts.find? (fun c => c.user_id == user_id) with
  | none => .error (.httpError 404 "Cart is empty or not found")
  | some cart =>
    let cart_items := db.cart_items.filter (fun ci => ci.cart_id == cart.id)
    if cart_items = [] then
      .error (.httpError 404 "Cart is empty or not found")
    else
      match check_cart_items db user_id cart_items with
      | some e => .error e
      | none =>
        let total_amount :=
          (cart_items.map (fun ci => movie_price db ci.movie_id)).sum
        let new_order : Order :=
          { id := fresh_order_id, user_id := user_id, created_at := now,
            status := OrderStatus.pending, total_amount := total_amount }
        let new_items :=
          cart_items.enum.map (fun p =>
            ({ id := fresh_item_id + p.1, order_id := fresh_order_id,
               movie_id := p.2.movie_id,
               price_at_order := movie_price db p.2.movie_id } : OrderItem))
        .ok
          ({ db with
              orders := db.orders ++ [new_order],
              order_items := db.order_items ++ new_items,
              cart_items :=
                db.cart_items.filter (fun ci => !(ci.cart_id == cart.id)) },
            new_order)

/-- The `pay_order` handler: 404 when no order matches `(order_id, user)`;
400 when the order is already paid; otherwise sets the status to paid.  Note
the handler checks ONLY for paid — a canceled order passes the check. -/
def pay_order (db : DB) (user_id order_id : Nat) : Except PyError DB :=
  match db.orders.find? (fun o => o.id == order_id && o.user_id == user_id) with
  | none => .error (.httpError 404 "Order not found")
  | some o =>
    if o.status = OrderStatus.paid then
      .error (.httpError 400 "Order is already paid")
    else
      .ok { db with
              orders := set_order_status db.orders order_id user_id
                OrderStatus.paid }

/-- The `cancel_order` handler: 404 when no order matches; 400 when already
canceled; 400 when paid; otherwise sets the status to canceled. -/
def cancel_order (db : DB) (user_id order_id : Nat) : Except PyError DB :=
  match db.orders.find? (fun o => o.id == order_id && o.user_id == user_id) with
  | none => .error (.httpError 404 "Order not found")
  | some o =>
    if o.status = OrderStatus.canceled then
      .error (.httpError 400 "Order is already canceled")
    else if o.status = OrderStatus.paid then
      .error (.httpError 400 "Paid orders cannot be canceled directly")
    else
      .ok { db with
              orders := set_order_status db.orders order_id user_id
                OrderStatus.canceled }

/-- Filter predicate of the admin order listing. -/
def order_matches (o : Order) (user_id : Option Nat)
    (start_date end_date : Option Nat) (status : Option OrderStatus) : Bool :=
  (match user_id with | some v => o.user_id == v | none => true) &&
  (match start_date with | some v => v ≤ o.created_at | none => true) &&
  (match end_date with | some v => o.created_at ≤ v | none => true) &&
  (match status with | some st => decide (o.status = st) | none => true)

/-- The `get_orders_for_admin` handler.  On an empty result the source
executes `status.HTTP_404_NOT_FOUND`, but inside the function body `status`
is the query parameter (an `Optional[StatusEnum]`, i.e. `None` or an enum
member), which shadows the imported `fastapi.status` module — neither `None`
nor a `StatusEnum` member has that attribute, so the line raises
`AttributeError` instead of the intended `HTTPException(404)`. -/
def get_orders_for_admin (db : DB) (user_id : Option Nat)
    (start_date end_date : Option Nat) (status : Option OrderStatus) :
    Except PyError (List Order) :=
  let orders :=
    db.orders.filter (fun o => order_matches o user_id start_date end_date status)
  if orders = [] then
    .error (.attributeError "HTTP_404_NOT_FOUND")
  else
    .ok orders

/-- Filter predicate of the payment listings. -/
def payment_matches (p : Payment) (status : Option PaymentStatus)
    (start_date end_date : Option Nat) : Bool :=
  (match status with | some st => decide (p.status = st) | none => true) &&
  (match start_date with | some v => v ≤ p.created_at | none => true) &&
  (match end_date with | some v => p.created_at ≤ v | none => true)

/-- The `get_payments_by_user` handler.  Same `status`-parameter shadowing as
`get_orders_for_admin`: the empty-result branch raises `AttributeError`. -/
def get_payments_by_user (db : DB) (current_user_id : Nat)
    (status : Option PaymentStatus) (start_date end_date : Option Nat) :
    Except PyError (List Payment) :=
  let payments :=
    db.payments.filter (fun p =>
      p.user_id == current_user_id && payment_matches p status start_date end_date)
  if payments = [] then
    .error (.attributeError "HTTP_404_NOT_FOUND")
  else
    .ok payments

/-- The `get_payments_by_admin` handler; same shadowing on the empty branch. -/
def get_payments_by_admin (db : DB) (user_id : Option Nat)
    (status : Option PaymentStatus) (start_date end_date : Option Nat) :
    Except PyError (List Payment) :=
  let payments :=
    db.payments.filter (fun p =>
      (match user_id with | some v => p.user_id == v | none => true) &&
      payment_matches p status start_date end_date)
  if payments = [] then
    .error (.attributeError "HTTP_404_NOT_FOUND")
  else
    .ok payments

/-- The `create_payments` handler (`app/routes/payments.py`): re-fetches the
user by email, fetches the order by `(order_id, user)`, rejects paid orders,
sums the order items, requires the Stripe key, creates the intent, and on
success persists a Payment keyed by `intent.id` with one PaymentItem per
order item.  The route passes `StatusEnum.CANCELED` — the status enum it
imports from `app.models.order` — as the new payment's status, so the row is
stored as canceled. -/
def create_payments (db : DB) (current_user : User) (order_id : Nat)
    (api_key_configured : Bool) (stripe_result : StripeResult)
    (fresh_payment_id now : Nat) : Except PyError (DB × Payment) :=
  match db.users.find? (fun u => u.email == current_user.email) with
  | none => .error (.httpError 404 "User not found")
  | some _ =>
    match db.orders.find? (fun o =>
        o.id == order_id && o.user_id == current_user.id) with
    | none => .error (.httpError 404 "Order not found")
    | some order =>
      if order.status = OrderStatus.paid then
        .error (.httpError 400 "Payment is already paid")
      else
        let items := db.order_items.filter (fun oi => oi.order_id == order_id)
        let total_amount := (items.map (fun oi => oi.price_at_order)).sum
        if api_key_configured = false then
          .error (.httpError 503
            "Payment service is not configured. Please try later.")
        else
          match stripe_result with
          | .invalidRequestError =>
            .error (.httpError 400
              "Payment method not available. Try a different payment method.")
          | .stripeError =>
            .error (.httpError 502
              "Payment processing error. Please try again later.")
          | .intent intent_id =>
            let payment : Payment :=
              { id := fresh_payment_id, user_id := current_user.id,
                order_id := order.id, created_at := now,
                status := PaymentStatus.canceled, amount := total_amount,
                external_payment_id := intent_id }
            let new_items := items.map (fun oi =>
              ({ payment_id := fresh_payment_id, order_item_id := oi.id,
                 price_at_payment := oi.price_at_order } : PaymentItem))
            .ok
              ({ db with
                  payments := db.payments ++ [payment],
                  payment_items := db.payment_items ++ new_items },
                payment)

/-- One row of the cart response built by `get_cart_by_user_id`. -/
structure CartMovie where
  movie_id : Nat
  name : String
  price : Nat
deriving DecidableEq, Repr

/-- The `get_cart_by_user_id` handler (`app/routes/cart.py`): 404 when the
user has no cart row; otherwise builds one row per cart item from the
`item.movie` relationship (accessing `item.movie.id` on a dangling item would
raise `AttributeError`, modelled by the `none` branch of the traversal). -/
def get_cart_by_user_id (db : DB) (current_user_id : Nat) :
    Except PyError (Nat × List CartMovie) :=
  match db.carts.find? (fun c => c.user_id == current_user_id) with
  | none => .error (.httpError 404 "No cart found for user")
  | some cart =>
    let items := db.cart_items.filter (fun ci => ci.cart_id == cart.id)
    match items.mapM (fun ci =>
        (find_movie db ci.movie_id).map (fun m =>
          ({ movie_id := m.id, name := m.name, price := m.price } : CartMovie))) with
    | some movies_list => .ok (current_user_id, movies_list)
    | none => .error (.attributeError "movie")

/-- The `add_cart_item` handler (`app/routes/cart.py`): 404 when the movie is
missing; lazily creates and COMMITS the user's cart when absent; 409 when the
movie is already in the cart; 400 when the purchase-check query (which joins
the user's orders with no status filter) finds any order item with this
movie; otherwise inserts the cart item.  Because the lazily created cart is
committed before the checks, the function returns the post-commit state even
on the 409/400 paths. -/
def add_cart_item (db : DB) (current_user_id movie_id fresh_cart_id : Nat) :
    DB × Except PyError Unit :=
  match find_movie db movie_id with
  | none => (db, .error (.httpError 404 "Movie not found."))
  | some _ =>
    let step := fun (db1 : DB) (cart : Cart) =>
      if (db1.cart_items.filter (fun ci => ci.cart_id == cart.id)).any
          (fun ci => ci.movie_id == movie_id) then
        (db1, Except.error (PyError.httpError 409
          "This movie is already present in your cart."))
      else if user_has_order_with_movie db1 current_user_id movie_id then
        (db1, Except.error (PyError.httpError 400
          "You have already purchased this movie. Repeat purchases are not allowed."))
      else
        ({ db1 with
            cart_items := db1.cart_items ++
              [{ cart_id := cart.id, movie_id := movie_id }] },
          Except.ok ())
    match db.carts.find? (fun c => c.user_id == current_user_id) with
    | some cart => step db cart
    | none =>
      let cart : Cart := { id := fresh_cart_id, user_id := current_user_id }
      step { db with carts := db.carts ++ [cart] } cart

/-- The `request_password_reset_token` handler (`app/routes/accounts.py`):
for an unknown or inactive email it returns the generic message WITHOUT
touching the state; for an active user it deletes any prior reset token,
stores a fresh one, and returns a DIFFERENT message. -/
def request_password_reset_token (db : DB) (email : String)
    (fresh_token : String) (expires_at : Nat) : DB × String :=
  match db.users.find? (fun u => u.email == email) with
  | none =>
    (db, "If you are registered, you will receive an email with instructions.")
  | some user =>
    if user.is_active = false then
      (db, "If you are registered, you will receive an email with instructions.")
    else
      ({ db with
          password_reset_tokens :=
            (db.password_reset_tokens.filter (fun t => !(t.user_id == user.id)))
              ++ [{ user_id := user.id, token := fresh_token,
                    expires_at := expires_at }] },
        "Password reset email sent successfully.")

/-- The `change_password` handler: re-fetches the current user, rejects a
wrong old password, otherwise overwrites the hashed password.  Nothing else
in the state is touched. -/
def change_password (db : DB) (current_user_id : Nat)
    (old_password new_password : String) : DB × Except PyError Unit :=
  match db.users.find? (fun u => u.id == current_user_id) with
  | none => (db, .error (.httpError 400 "User not found."))
  | some user =>
    if verify_password old_password user.hashed_password = false then
      (db, .error (.httpError 400 "Invalid old password."))
    else
      ({ db with
          users := set_user_password db.users user.id
            (hash_password new_password) },
        .ok ())

/-- The `reset_password` handler (reset-password/complete): validates the
email, activity, token record, token value and expiry (deleting the token on
the mismatch and expiry failure paths), then overwrites the password and
consumes the token. -/
def reset_password (db : DB) (email token new_password : String) (now : Nat) :
    DB × Except PyError Unit :=
  match db.users.find? (fun u => u.email == email) with
  | none => (db, .error (.httpError 400 "Invalid email or token."))
  | some user =>
    if user.is_active = false then
      (db, .error (.httpError 400 "Invalid email or token."))
    else
      match db.password_reset_tokens.find? (fun t => t.user_id == user.id) with
      | none => (db, .error (.httpError 400 "Invalid email or token."))
      | some token_record =>
        if token_record.token ≠ token then
          ({ db with
              password_reset_tokens :=
                delete_reset_token db.password_reset_tokens user.id },
            .error (.httpError 400 "Invalid email or token."))
        else if token_record.expires_at < now then
          ({ db with
              password_reset_tokens :=
                delete_reset_token db.password_reset_tokens user.id },
            .error (.httpError 400 "Invalid email or token."))
        else
          ({ db with
              users := set_user_password db.users user.id
                (hash_password new_password),
              password_reset_tokens :=
                delete_reset_token db.password_reset_tokens user.id },
            .ok ())

/-- The `refresh_access_token` handler: 400 when the refresh-token decode
raised; 401 when the token string is not persisted; 404 when the user of the
`user_id` claim no longer exists; otherwise a fresh access token. -/
def refresh_access_token (db : DB) (refresh_token : String)
    (decoded : DecodeResult) : Except PyError String :=
  match decoded with
  | .failure => .error (.httpError 400 "Token decode error")
  | .payload claim =>
    match db.refresh_tokens.find? (fun t => t.token == refresh_token) with
    | none => .error (.httpError 401 "Refresh token not found.")
    | some _ =>
      match claim with
      | none => .error (.httpError 404 "User not found.")
      | some uid =>
        match db.users.find? (fun u => u.id == uid) with
        | none => .error (.httpError 404 "User not found.")
        | some _ => .ok (create_access_token uid)

/-- The `get_current_user` dependency (`app/security/auth_dependencies.py`):
a decode failure gives 401; a payload without a `user_id` claim raises an
inner 401 that the blanket `except Exception` catches and replaces with the
same 401; when the token is valid but the user row is gone, the handler
executes `status.HTTP_404_BAD_REQUEST` — `fastapi.status` has no such
attribute, so the line raises `AttributeError` (an HTTP 500), not a 404. -/
def get_current_user (db : DB) (decoded : DecodeResult) :
    Except PyError User :=
  match decoded with
  | .failure => .error (.httpError 401 "Could not validate credentials")
  | .payload none => .error (.httpError 401 "Could not validate credentials")
  | .payload (some uid) =>
    match db.users.find? (fun u => u.id == uid) with
    | none => .error (.attributeError "HTTP_404_BAD_REQUEST")
    | some u => .ok u

/-! Concrete states used to exercise the handlers. -/

/-- Database with every table empty. -/
def emptyDB : DB :=
  { users := [], movies := [], carts := [], cart_items := [], orders := [],
    order_items := [], payments := [], payment_items := [],
    refresh_tokens := [], password_reset_tokens := [] }

/-- An order of user 7 that has been canceled. -/
def exOrderC2 : Order :=
  { id := 1, user_id := 7, created_at := 3, status := OrderStatus.canceled,
    total_amount := 1050 }

/-- Database holding only the canceled order of user 7. -/
def exDB2 : DB := { emptyDB with orders := [exOrderC2] }

/-- The state `pay_order` produces from `exDB2`: the canceled order is paid. -/
def exDB2paid : DB :=
  { emptyDB with orders := [{ exOrderC2 with status := OrderStatus.paid }] }

/-- A stored payment with external id `pi_a`. -/
def payC3 : Payment :=
  { id := 1, user_id := 7, order_id := 1, created_at := 3,
    status := PaymentStatus.canceled, amount := 1050,
    external_payment_id := "pi_a" }

/-- A webhook success event whose external id matches no stored payment. -/
def evC3 : StripeEvent :=
  { type := "payment_intent.succeeded", object_id := "pi_b" }

/-- A registered, active user. -/
def exUser8 : User :=
  { id := 1, email := "bob@example.com",
    hashed_password := hash_password "old", is_active := true }

/-- Database holding only the user `exUser8`. -/
def exDB8 : DB := { emptyDB with users := [exUser8] }

/-- A movie row. -/
def exMovie6 : Movie := { id := 3, name := "Film", price := 1050 }

/-- Database where user 7 has a CANCELED order containing movie 3 and no
cart: the add-to-cart purchase check still fires, and the lazily created cart
is committed before it. -/
def exDB6 : DB :=
  { emptyDB with
    movies := [exMovie6],
    orders := [exOrderC2],
    order_items := [{ id := 11, order_id := 1, movie_id := 3,
                      price_at_order := 1050 }] }

/-- Database with movie 3 and no order history at all. -/
def exDB6w : DB := { emptyDB with movies := [exMovie6] }

/-- Database for the password-change scenarios: an active user with one live
login session (refresh token) and one pending reset token. -/
def exDB10 : DB :=
  { emptyDB with
    users := [exUser8],
    refresh_tokens := [{ user_id := 1, token := "r1" }],
    password_reset_tokens := [{ user_id := 1, token := "tok",
                                expires_at := 100 }] }

/-- The paying user of the payment scenario. -/
def exUser4 : User :=
  { id := 7, email := "u@example.com", hashed_password := "x",
    is_active := true }

/-- The single order item being paid for. -/
def exOrderItem4 : OrderItem :=
  { id := 11, order_id := 1, movie_id := 3, price_at_order := 1050 }

/-- Database with a pending order of user 7 holding one order item. -/
def exDB4 : DB :=
  { emptyDB with
    users := [exUser4],
    orders := [{ id := 1, user_id := 7, created_at := 2,
                 status := OrderStatus.pending, total_amount := 1050 }],
    order_items := [exOrderItem4] }

/-- The payment row `create_payments` persists from `exDB4`: note the stored
status is canceled. -/
def exPayment4 : Payment :=
  { id := 50, user_id := 7, order_id := 1, created_at := 9,
    status := PaymentStatus.canceled, amount := 1050,
    external_payment_id := "pi_1" }

/-- The state after the successful `create_payments` run on `exDB4`. -/
def exDB4ok : DB :=
  { exDB4 with
    payments := [exPayment4],
    payment_items := [{ payment_id := 50, order_item_id := 11,
                        price_at_payment := 1050 }] }

/-- The cart of user 7 in the order-creation scenario. -/
def exCart1 : Cart := { id := 2, user_id := 7 }

/-- Database where user 7 has a one-item cart with movie 3 and no order
history: every `create_order` check passes. -/
def exDB1 : DB :=
  { emptyDB with
    movies := [exMovie6],
    carts := [exCart1],
    cart_items := [{ cart_id := 2, movie_id := 3 }] }

/-! Helper lemmas. -/

theorem update_payment_status_idem (payments : List Payment)
    (st : PaymentStatus) (eid : String) :
    update_payment_status (update_payment_status payments st eid) st eid =
      update_payment_status payments st eid := by
  induction payments with
  | nil => rfl
  | cons p rest ih =>
    by_cases hp : p.external_payment_id = eid
    · simp [update_payment_status, hp]
    · simp [update_payment_status, hp, ih]

theorem update_payment_status_unmatched (payments : List Payment)
    (st : PaymentStatus) (eid : String)
    (h : ∀ p ∈ payments, p.external_payment_id ≠ eid) :
    update_payment_status payments st eid = payments := by
  induction payments with
  | nil => rfl
  | cons p rest ih =>
    have hp : p.external_payment_id ≠ eid := h p (List.mem_cons_self _ _)
    have hr := ih (fun q hq => h q (List.mem_cons_of_mem _ hq))
    simp [update_payment_status, hp, hr]

theorem check_cart_items_eq_none (db : DB) (user_id : Nat)
    (l : List CartItem) (h : ∀ ci ∈ l, check_cart_item db user_id ci = none) :
    check_cart_items db user_id l = none := by
  induction l with
  | nil => rfl
  | cons ci rest ih =>
    have h1 := h ci (List.mem_cons_self _ _)
    have h2 := ih (fun x hx => h x (List.mem_cons_of_mem _ hx))
    simp [check_cart_items, h1, h2]

theorem forall2_enumFrom_map {α β : Type _} (R : β → α → Prop)
    (f : Nat × α → β) (h : ∀ i x, R (f (i, x)) x) :
    ∀ (n : Nat) (l : List α), List.Forall₂ R ((List.enumFrom n l).map f) l := by
  intro n l
  induction l generalizing n with
  | nil => simp
  | cons x xs ih =>
    simp only [List.enumFrom, List.map]
    exact List.Forall₂.cons (h n x) (ih (n + 1))

theorem filter_not_filter {α : Type _} (l : List α) (p : α → Bool) :
    (l.filter (fun a => !(p a))).filter p = [] := by
  induction l with
  | nil => rfl
  | cons a t ih =>
    by_cases h : p a <;> simp [h, ih]

theorem filter_eq_nil_of {α : Type _} (l : List α) (p : α → Bool)
    (h : ∀ a ∈ l, p a = false) : l.filter p = [] := by
  induction l with
  | nil => rfl
  | cons a t ih =>
    have ha := h a (List.mem_cons_self _ _)
    have ht := ih (fun x hx => h x (List.mem_cons_of_mem _ hx))
    simp [List.filter, ha, ht]

theorem find?_append_of_none {α : Type _} (l₁ l₂ : List α) (p : α → Bool)
    (h : l₁.find? p = none) : (l₁ ++ l₂).find? p = l₂.find? p := by
  induction l₁ with
  | nil => rfl
  | cons a t ih =>
    cases hpa : p a with
    | true => simp [List.find?, hpa] at h
    | false =>
      simp only [List.find?, hpa] at h ⊢
      exact ih h

theorem forall2_map_left {α β : Type _} (R : β → α → Prop) (f : α → β)
    (l : List α) (h : ∀ x, R (f x) x) : List.Forall₂ R (l.map f) l := by
  induction l with
  | nil => exact List.Forall₂.nil
  | cons a t ih => exact List.Forall₂.cons (h a) ih

/-! Claim theorems. -/

/-- C2 (counterexample): on an order whose status is canceled, `pay_order`
does not fail — it transitions the order to paid. -/
theorem pay_order_on_canceled_counterexample :
    exDB2.orders.map Order.status = [OrderStatus.canceled] ∧
    pay_order exDB2 7 1 = Except.ok exDB2paid ∧
    exDB2paid.orders.map Order.status = [OrderStatus.paid] :=
  ⟨rfl, rfl, rfl⟩

/-- C2 (amended): `pay_order` fails with BadRequest exactly on paid orders;
`cancel_order` fails with BadRequest on paid or canceled orders; but a
canceled order is NOT terminal for `pay_order` — it is transitioned to paid. -/
theorem order_state_machine (db : DB) (user_id order_id : Nat) (o : Order)
    (hfind : db.orders.find?
      (fun o2 => o2.id == order_id && o2.user_id == user_id) = some o) :
    (o.status = OrderStatus.paid →
      pay_order db user_id order_id =
        Except.error (PyError.httpError 400 "Order is already paid") ∧
      cancel_order db user_id order_id =
        Except.error (PyError.httpError 400
          "Paid orders cannot be canceled directly")) ∧
    (o.status = OrderStatus.canceled →
      cancel_order db user_id order_id =
        Except.error (PyError.httpError 400 "Order is already canceled") ∧
      pay_order db user_id order_id =
        Except.ok { db with
          orders := set_order_status db.orders order_id user_id
            OrderStatus.paid }) := by
  constructor
  · intro hst
    constructor
    · simp [pay_order, hfind, hst]
    · have hne : o.status ≠ OrderStatus.canceled := by
        rw [hst]; intro hc; cases hc
      simp [cancel_order, hfind, hst, hne]
  · intro hst
    have hne : o.status ≠ OrderStatus.paid := by
      rw [hst]; intro hc; cases hc
    constructor
    · simp [cancel_order, hfind, hst]
    · simp [pay_order, hfind, hne]

/-- C2 (witness): concrete application of `order_state_machine` to a
one-order database holding a canceled order. -/
theorem order_state_machine_witness :
    cancel_order exDB2 7 1 =
      Except.error (PyError.httpError 400 "Order is already canceled") :=
  ((order_state_machine exDB2 7 1 exOrderC2 rfl).2 rfl).1

/-- C3: the webhook status update is idempotent (processing the same event
twice yields the same payments state as processing it once) and is a silent
no-op when the external payment id matches no stored payment. -/
theorem stripe_webhook_idempotent_and_silent (payments : List Payment)
    (event : StripeEvent) :
    stripe_webhook (stripe_webhook payments event) event =
      stripe_webhook payments event ∧
    ((∀ p ∈ payments, p.external_payment_id ≠ event.object_id) →
      stripe_webhook payments event = payments) := by
  constructor
  · simp only [stripe_webhook]
    split_ifs <;> simp [update_payment_status_idem]
  · intro h
    simp only [stripe_webhook]
    split_ifs <;> simp [update_payment_status_unmatched _ _ _ h]

/-- C3 (witness): concrete application of
`stripe_webhook_idempotent_and_silent` to an unmatched external id. -/
theorem stripe_webhook_idempotent_and_silent_witness :
    (∀ p ∈ [payC3], p.external_payment_id ≠ "pi_b") ∧
    stripe_webhook [payC3] evC3 = [payC3] :=
  ⟨by decide,
    (stripe_webhook_idempotent_and_silent [payC3] evC3).2 (by decide)⟩

/-- C7 (code bug): on an empty filtered result the admin order listing and
both payment listings raise `AttributeError` (HTTP 500) instead of the
intended `HTTPException(404)`, because the `status` query parameter shadows
the `fastapi.status` module inside the handler body; non-empty results are
returned normally. -/
theorem empty_listing_raises_attribute_error :
    get_orders_for_admin emptyDB none none none none =
      Except.error (PyError.attributeError "HTTP_404_NOT_FOUND") ∧
    get_payments_by_user emptyDB 7 none none none =
      Except.error (PyError.attributeError "HTTP_404_NOT_FOUND") ∧
    get_payments_by_admin emptyDB none none none none =
      Except.error (PyError.attributeError "HTTP_404_NOT_FOUND") ∧
    get_orders_for_admin exDB2 none none none (some OrderStatus.canceled) =
      Except.ok [exOrderC2] ∧
    get_orders_for_admin exDB2 none none none (some OrderStatus.paid) =
      Except.error (PyError.attributeError "HTTP_404_NOT_FOUND") :=
  ⟨rfl, rfl, rfl, rfl, rfl⟩

/-- C8 (code bug): token decode failures and a missing `user_id` claim give
401 as specified, and a valid token whose user exists resolves the user; but
when the referenced user no longer exists the handler evaluates the
nonexistent attribute `status.HTTP_404_BAD_REQUEST` and raises
`AttributeError` (HTTP 500) instead of the specified NotFound. -/
theorem get_current_user_missing_user_attribute_error :
    get_current_user emptyDB DecodeResult.failure =
      Except.error (PyError.httpError 401 "Could not validate credentials") ∧
    get_current_user emptyDB (DecodeResult.payload none) =
      Except.error (PyError.httpError 401 "Could not validate credentials") ∧
    get_current_user emptyDB (DecodeResult.payload (some 5)) =
      Except.error (PyError.attributeError "HTTP_404_BAD_REQUEST") ∧
    get_current_user exDB8 (DecodeResult.payload (some 1)) =
      Except.ok exUser8 :=
  ⟨rfl, rfl, rfl, rfl⟩

/-- C5 (counterexample): the password-reset request answers with a DIFFERENT
message for a registered active email than for an unknown email, so the
response body does disclose account existence. -/
theorem request_password_reset_message_counterexample :
    (request_password_reset_token exDB8 "bob@example.com" "tok" 99).2 =
      "Password reset email sent successfully." ∧
    (request_password_reset_token emptyDB "bob@example.com" "tok" 99).2 =
      "If you are registered, you will receive an email with instructions." ∧
    ("Password reset email sent successfully." : String) ≠
      "If you are registered, you will receive an email with instructions." :=
  ⟨rfl, rfl, by decide⟩

/-- C5 (amended): the endpoint always returns an HTTP 200 success, but the
message distinguishes the cases: unknown or inactive emails get the generic
"If you are registered…" text (with the state untouched), while a registered
active email gets "Password reset email sent successfully.". -/
theorem request_password_reset_messages (db : DB) (email fresh_token : String)
    (expires_at : Nat) :
    (db.users.find? (fun u => u.email == email) = none →
      request_password_reset_token db email fresh_token expires_at =
        (db, "If you are registered, you will receive an email with instructions.")) ∧
    (∀ u, db.users.find? (fun u2 => u2.email == email) = some u →
      (u.is_active = false →
        request_password_reset_token db email fresh_token expires_at =
          (db, "If you are registered, you will receive an email with instructions.")) ∧
      (u.is_active = true →
        (request_password_reset_token db email fresh_token expires_at).2 =
          "Password reset email sent successfully.")) := by
  refine ⟨fun h => ?_, fun u hu => ⟨fun hi => ?_, fun ha => ?_⟩⟩
  · simp [request_password_reset_token, h]
  · simp [request_password_reset_token, hu, hi]
  · simp [request_password_reset_token, hu, ha]

/-- C5 (witness): concrete application of `request_password_reset_messages`
to the database holding the active user `exUser8`. -/
theorem request_password_reset_messages_witness :
    (request_password_reset_token exDB8 "bob@example.com" "t2" 99).2 =
      "Password reset email sent successfully." :=
  ((request_password_reset_messages exDB8 "bob@example.com" "t2" 99).2
    exUser8 rfl).2 rfl

/-- C6 (counterexample): user 7 holds NO paid order containing movie 3 (only
a canceled one), the movie exists and is not in any cart, yet `add_cart_item`
fails with BadRequest — the purchase check ignores the order status. -/
theorem add_cart_item_canceled_order_counterexample :
    find_movie exDB6 3 = some exMovie6 ∧
    has_order_item_with_status exDB6 7 3 OrderStatus.paid = false ∧
    (add_cart_item exDB6 7 3 20).2 = Except.error (PyError.httpError 400
      "You have already purchased this movie. Repeat purchases are not allowed.") :=
  ⟨rfl, rfl, rfl⟩

/-- C6 (amended): given the movie exists and is in no cart of the user,
`add_cart_item` fails with BadRequest exactly when the movie appears in ANY
of the user's orders — paid, pending or canceled alike — and succeeds (the
item is stored) when the user has no order containing it. -/
theorem add_cart_item_spec (db : DB) (user_id movie_id fresh_cart_id : Nat)
    (m : Movie) (hm : find_movie db movie_id = some m)
    (hnotin : ∀ c ∈ db.carts, c.user_id = user_id →
      ∀ ci ∈ db.cart_items, ci.cart_id = c.id → ci.movie_id ≠ movie_id)
    (hfresh : ∀ ci ∈ db.cart_items, ci.cart_id ≠ fresh_cart_id) :
    (user_has_order_with_movie db user_id movie_id = true →
      (add_cart_item db user_id movie_id fresh_cart_id).2 =
        Except.error (PyError.httpError 400
          "You have already purchased this movie. Repeat purchases are not allowed.")) ∧
    (user_has_order_with_movie db user_id movie_id = false →
      (add_cart_item db user_id movie_id fresh_cart_id).2 = Except.ok () ∧
      ∃ c, c ∈ (add_cart_item db user_id movie_id fresh_cart_id).1.carts ∧
        c.user_id = user_id ∧
        ({ cart_id := c.id, movie_id := movie_id } : CartItem) ∈
          (add_cart_item db user_id movie_id fresh_cart_id).1.cart_items) := by
  cases hc : db.carts.find? (fun c => c.user_id == user_id) with
  | some cart =>
    have hmem : cart ∈ db.carts := List.mem_of_find?_eq_some hc
    have hcu : cart.user_id = user_id := by
      have := List.find?_some hc
      simpa using this
    have hA : (db.cart_items.filter (fun ci => ci.cart_id == cart.id)).any
        (fun ci => ci.movie_id == movie_id) = false := by
      cases hA : (db.cart_items.filter (fun ci => ci.cart_id == cart.id)).any
          (fun ci => ci.movie_id == movie_id) with
      | false => rfl
      | true =>
        exfalso
        obtain ⟨ci, hmemf, hmv⟩ := List.any_eq_true.mp hA
        obtain ⟨hmemi, hcid⟩ := List.mem_filter.mp hmemf
        exact hnotin cart hmem hcu ci hmemi (by simpa using hcid)
          (by simpa using hmv)
    constructor
    · intro hyes
      simp [add_cart_item, hm, hc, hA, hyes]
    · intro hno
      refine ⟨by simp [add_cart_item, hm, hc, hA, hno], cart, ?_, hcu, ?_⟩
      · simp [add_cart_item, hm, hc, hA, hno, hmem]
      · simp [add_cart_item, hm, hc, hA, hno]
  | none =>
    have hflt : db.cart_items.filter
        (fun ci => ci.cart_id == fresh_cart_id) = [] :=
      filter_eq_nil_of _ _ (fun ci hci => by
        simpa using hfresh ci hci)
    have huho : user_has_order_with_movie
        { db with carts := db.carts ++
            [{ id := fresh_cart_id, user_id := user_id }] } user_id movie_id =
        user_has_order_with_movie db user_id movie_id := rfl
    constructor
    · intro hyes
      simp [add_cart_item, hm, hc, hflt, huho, hyes]
    · intro hno
      refine ⟨?_, { id := fresh_cart_id, user_id := user_id }, ?_, rfl, ?_⟩
      · simp [add_cart_item, hm, hc, hflt, huho, hno]
      · simp [add_cart_item, hm, hc, hflt, huho, hno]
      · simp [add_cart_item, hm, hc, hflt, huho, hno]

/-- C6 (witness): with no order history at all, adding movie 3 succeeds. -/
theorem add_cart_item_spec_witness :
    (add_cart_item exDB6w 7 3 20).2 = Except.ok () :=
  ((add_cart_item_spec exDB6w 7 3 20 exMovie6 rfl (by decide) (by decide)).2
    rfl).1

/-- C9: when a user has no cart row and an order already containing the
requested movie, `add_cart_item` fails with BadRequest but the lazily created
empty cart has already been committed: `get_cart_by_user_id` flips from
NotFound before the call to an empty 200 cart after it. -/
theorem add_cart_item_commits_cart_on_failure (db : DB)
    (user_id movie_id fresh_cart_id : Nat) (m : Movie)
    (hm : find_movie db movie_id = some m)
    (hnocart : db.carts.find? (fun c => c.user_id == user_id) = none)
    (hfresh : ∀ ci ∈ db.cart_items, ci.cart_id ≠ fresh_cart_id)
    (hbought : user_has_order_with_movie db user_id movie_id = true) :
    get_cart_by_user_id db user_id =
      Except.error (PyError.httpError 404 "No cart found for user") ∧
    (add_cart_item db user_id movie_id fresh_cart_id).2 =
      Except.error (PyError.httpError 400
        "You have already purchased this movie. Repeat purchases are not allowed.") ∧
    get_cart_by_user_id (add_cart_item db user_id movie_id fresh_cart_id).1
      user_id = Except.ok (user_id, []) := by
  have hflt : db.cart_items.filter
      (fun ci => ci.cart_id == fresh_cart_id) = [] :=
    filter_eq_nil_of _ _ (fun ci hci => by simpa using hfresh ci hci)
  have huho : user_has_order_with_movie
      { db with carts := db.carts ++
          [{ id := fresh_cart_id, user_id := user_id }] } user_id movie_id =
      user_has_order_with_movie db user_id movie_id := rfl
  refine ⟨by simp [get_cart_by_user_id, hnocart], ?_, ?_⟩
  · simp [add_cart_item, hm, hnocart, hflt, huho, hbought]
  · have hstate : (add_cart_item db user_id movie_id fresh_cart_id).1 =
        { db with carts := db.carts ++
            [{ id := fresh_cart_id, user_id := user_id }] } := by
      simp [add_cart_item, hm, hnocart, hflt, huho, hbought]
    rw [hstate]
    have hfind : (db.carts ++
        [({ id := fresh_cart_id, user_id := user_id } : Cart)]).find?
          (fun c => c.user_id == user_id) =
        some ({ id := fresh_cart_id, user_id := user_id } : Cart) := by
      rw [find?_append_of_none _ _ _ hnocart]
      simp [List.find?]
    simp [get_cart_by_user_id, hfind, hflt, List.mapM, List.mapM.loop]

/-- C9 (witness): concrete application of
`add_cart_item_commits_cart_on_failure` to `exDB6`. -/
theorem add_cart_item_commits_cart_on_failure_witness :
    get_cart_by_user_id (add_cart_item exDB6 7 3 20).1 7 = Except.ok (7, []) :=
  (add_cart_item_commits_cart_on_failure exDB6 7 3 20 exMovie6 rfl rfl
    (by decide) rfl).2.2

theorem set_user_password_find?_isSome (users : List User) (uid : Nat)
    (h : String) (vid : Nat) :
    ((set_user_password users uid h).find? (fun u => u.id == vid)).isSome =
      (users.find? (fun u => u.id == vid)).isSome := by
  induction users with
  | nil => rfl
  | cons u rest ih =>
    by_cases h1 : u.id = uid
    · have hb : (u.id == uid) = true := beq_iff_eq.mpr h1
      cases h2 : (u.id == vid) with
      | true => simp [set_user_password, hb, List.find?, h2]
      | false => simp [set_user_password, hb, List.find?, h2]
    · have hb : (u.id == uid) = false := by simp [h1]
      cases h2 : (u.id == vid) with
      | true => simp [set_user_password, hb, List.find?, h2]
      | false => simp [set_user_password, hb, List.find?, h2, ih]

theorem forall2_user_refl (l : List User) :
    List.Forall₂ (fun u u' : User =>
      u.id = u'.id ∧ u.email = u'.email ∧ u.is_active = u'.is_active) l l := by
  induction l with
  | nil => exact List.Forall₂.nil
  | cons u rest ih => exact List.Forall₂.cons ⟨rfl, rfl, rfl⟩ ih

theorem set_user_password_forall2 (users : List User) (uid : Nat)
    (h : String) :
    List.Forall₂ (fun u u' : User =>
        u.id = u'.id ∧ u.email = u'.email ∧ u.is_active = u'.is_active)
      users (set_user_password users uid h) := by
  induction users with
  | nil => exact List.Forall₂.nil
  | cons u rest ih =>
    by_cases h1 : u.id = uid
    · have hb : (u.id == uid) = true := beq_iff_eq.mpr h1
      simp only [set_user_password, hb, if_true, List.forall₂_cons]
      exact ⟨by simp, forall2_user_refl rest⟩
    · have hb : (u.id == uid) = false := by simp [h1]
      simp only [set_user_password, hb, Bool.false_eq_true, if_false,
        List.forall₂_cons]
      exact ⟨by simp, ih⟩

theorem refresh_access_token_congr (db db1 : DB)
    (hrt : db1.refresh_tokens = db.refresh_tokens)
    (hu : ∀ vid, (db1.users.find? (fun u => u.id == vid)).isSome =
      (db.users.find? (fun u => u.id == vid)).isSome)
    (rt : String) (dec : DecodeResult) :
    refresh_access_token db1 rt dec = refresh_access_token db rt dec := by
  cases dec with
  | failure => rfl
  | payload claim =>
    unfold refresh_access_token
    rw [hrt]
    cases db.refresh_tokens.find? (fun t => t.token == rt) with
    | none => rfl
    | some t =>
      cases claim with
      | none => rfl
      | some uid =>
        have hs := hu uid
        cases h1 : db1.users.find? (fun u => u.id == uid) <;>
          cases h2 : db.users.find? (fun u => u.id == uid) <;>
            simp [h1, h2] at hs ⊢

/-- C10: successful `change_password` and successful `reset_password` leave
every persisted refresh token (and for `change_password` also every reset
token) unchanged, and modify users only in their hashed password — so
`refresh_access_token` behaves identically before and after: sessions are
not revoked by a password change. -/
theorem password_change_preserves_sessions (db : DB) (user_id : Nat)
    (old_password new_password email token new_password2 : String)
    (now : Nat) :
    ((change_password db user_id old_password new_password).2 =
        Except.ok () →
      (change_password db user_id old_password new_password).1.refresh_tokens
          = db.refresh_tokens ∧
      (change_password db user_id old_password
          new_password).1.password_reset_tokens = db.password_reset_tokens ∧
      List.Forall₂ (fun u u' : User =>
          u.id = u'.id ∧ u.email = u'.email ∧ u.is_active = u'.is_active)
        db.users
        (change_password db user_id old_password new_password).1.users ∧
      (∀ rt dec, refresh_access_token
          (change_password db user_id old_password new_password).1 rt dec =
        refresh_access_token db rt dec)) ∧
    ((reset_password db email token new_password2 now).2 = Except.ok () →
      (reset_password db email token new_password2 now).1.refresh_tokens =
          db.refresh_tokens ∧
      List.Forall₂ (fun u u' : User =>
          u.id = u'.id ∧ u.email = u'.email ∧ u.is_active = u'.is_active)
        db.users (reset_password db email token new_password2 now).1.users ∧
      (∀ rt dec, refresh_access_token
          (reset_password db email token new_password2 now).1 rt dec =
        refresh_access_token db rt dec)) := by
  constructor
  · intro h
    cases hu : db.users.find? (fun u => u.id == user_id) with
    | none => simp [change_password, hu] at h
    | some user =>
      by_cases hv : verify_password old_password user.hashed_password = false
      · simp [change_password, hu, hv] at h
      · have hstate :
            (change_password db user_id old_password new_password).1 =
            { db with
                users :=
                  set_user_password db.users user.id
                    (hash_password new_password) } := by
          simp [change_password, hu, hv]
        rw [hstate]
        exact ⟨rfl, rfl, set_user_password_forall2 _ _ _, fun rt dec =>
          refresh_access_token_congr db
            { db with
                users :=
                  set_user_password db.users user.id
                    (hash_password new_password) }
            rfl
            (fun vid => set_user_password_find?_isSome db.users user.id
              (hash_password new_password) vid) rt dec⟩
  · intro h
    cases hu : db.users.find? (fun u => u.email == email) with
    | none => simp [reset_password, hu] at h
    | some user =>
      by_cases ha : user.is_active = false
      · simp [reset_password, hu, ha] at h
      · cases htr : db.password_reset_tokens.find?
            (fun t => t.user_id == user.id) with
        | none => simp [reset_password, hu, ha, htr] at h
        | some token_record =>
          by_cases ht : token_record.token = token
          · by_cases he : token_record.expires_at < now
            · simp [reset_password, hu, ha, htr, ht, he] at h
            · have hstate :
                  (reset_password db email token new_password2 now).1 =
                  { db with
                      users := set_user_password db.users user.id
                        (hash_password new_password2),
                      password_reset_tokens :=
                        delete_reset_token db.password_reset_tokens
                          user.id } := by
                simp [reset_password, hu, ha, htr, ht, he]
              rw [hstate]
              exact ⟨rfl, set_user_password_forall2 _ _ _, fun rt dec =>
                refresh_access_token_congr db
                  { db with
                      users :=
                        set_user_password db.users user.id
                          (hash_password new_password2),
                      password_reset_tokens :=
                        delete_reset_token db.password_reset_tokens user.id }
                  rfl
                  (fun vid => set_user_password_find?_isSome db.users user.id
                    (hash_password new_password2) vid) rt dec⟩
          · simp [reset_password, hu, ha, htr, ht] at h

/-- C10 (witness): concrete application of
`password_change_preserves_sessions` to `exDB10`, where both operations
succeed and the stored login session keeps refreshing. -/
theorem password_change_preserves_sessions_witness :
    (change_password exDB10 1 "old" "new").2 = Except.ok () ∧
    (change_password exDB10 1 "old" "new").1.refresh_tokens =
      exDB10.refresh_tokens ∧
    (reset_password exDB10 "bob@example.com" "tok" "new2" 50).2 =
      Except.ok () ∧
    refresh_access_token
        (reset_password exDB10 "bob@example.com" "tok" "new2" 50).1 "r1"
        (DecodeResult.payload (some 1)) =
      refresh_access_token exDB10 "r1" (DecodeResult.payload (some 1)) := by
  have h := password_change_preserves_sessions exDB10 1 "old" "new"
    "bob@example.com" "tok" "new2" 50
  exact ⟨rfl, (h.1 rfl).1, rfl,
    (h.2 rfl).2.2 "r1" (DecodeResult.payload (some 1))⟩

/-- C4 (counterexample): a fully successful `create_payments` run persists
the Payment with status canceled — not successful and not pending (the
payment status enum has no pending member at all). -/
theorem create_payments_status_counterexample :
    create_payments exDB4 exUser4 1 true (StripeResult.intent "pi_1") 50 9 =
      Except.ok (exDB4ok, exPayment4) ∧
    exPayment4.status = PaymentStatus.canceled ∧
    PaymentStatus.canceled ≠ PaymentStatus.successful :=
  ⟨rfl, rfl, by decide⟩

/-- C4 (amended): every successful `create_payments` run persists a Payment
whose status is CANCELED (the route passes the order enum's `CANCELED` into
the payment status column), whose `external_payment_id` is the gateway intent
id, whose amount is the sum of the order items' `price_at_order`, and exactly
one PaymentItem per order item with `price_at_payment` equal to that item's
`price_at_order`. -/
theorem create_payments_spec (db : DB) (current_user : User)
    (order_id : Nat) (key : Bool) (res : StripeResult)
    (fresh_payment_id now : Nat) (db' : DB) (payment : Payment)
    (h : create_payments db current_user order_id key res fresh_payment_id
      now = Except.ok (db', payment)) :
    payment.status = PaymentStatus.canceled ∧
    (∀ eid, res = StripeResult.intent eid →
      payment.external_payment_id = eid) ∧
    payment.amount = ((db.order_items.filter
      (fun oi => oi.order_id == order_id)).map
        (fun oi => oi.price_at_order)).sum ∧
    db'.payment_items.take db.payment_items.length = db.payment_items ∧
    List.Forall₂ (fun (q : PaymentItem) (oi : OrderItem) =>
        q.payment_id = fresh_payment_id ∧ q.order_item_id = oi.id ∧
        q.price_at_payment = oi.price_at_order)
      (db'.payment_items.drop db.payment_items.length)
      (db.order_items.filter (fun oi => oi.order_id == order_id)) := by
  cases hu : db.users.find? (fun u => u.email == current_user.email) with
  | none => simp [create_payments, hu] at h
  | some u0 =>
    cases ho : db.orders.find?
        (fun o => o.id == order_id && o.user_id == current_user.id) with
    | none => simp [create_payments, hu, ho] at h
    | some order =>
      by_cases hp : order.status = OrderStatus.paid
      · simp [create_payments, hu, ho, hp] at h
      · cases key with
        | false => simp [create_payments, hu, ho, hp] at h
        | true =>
          cases res with
          | invalidRequestError => simp [create_payments, hu, ho, hp] at h
          | stripeError => simp [create_payments, hu, ho, hp] at h
          | intent eid =>
            simp only [create_payments, hu, ho, hp, if_neg,
              Bool.true_eq_false, if_false,
              Except.ok.injEq, Prod.mk.injEq] at h
            obtain ⟨hdb, hpay⟩ :
                ({ db with
                    payments := db.payments ++
                      [{ id := fresh_payment_id,
                         user_id := current_user.id, order_id := order.id,
                         created_at := now,
                         status := PaymentStatus.canceled,
                         amount := ((db.order_items.filter
                           (fun oi => oi.order_id == order_id)).map
                             (fun oi => oi.price_at_order)).sum,
                         external_payment_id := eid }],
                    payment_items := db.payment_items ++
                      (db.order_items.filter
                        (fun oi => oi.order_id == order_id)).map
                          (fun oi =>
                            ({ payment_id := fresh_payment_id,
                               order_item_id := oi.id,
                               price_at_payment :=
                                 oi.price_at_order } : PaymentItem)) } =
                  db') ∧
                ({ id := fresh_payment_id, user_id := current_user.id,
                   order_id := order.id, created_at := now,
                   status := PaymentStatus.canceled,
                   amount := ((db.order_items.filter
                     (fun oi => oi.order_id == order_id)).map
                       (fun oi => oi.price_at_order)).sum,
                   external_payment_id := eid } : Payment) = payment := h
            subst hdb
            subst hpay
            refine ⟨rfl, fun eid' heq => ?_, rfl, by simp, ?_⟩
            · cases heq; rfl
            · have hdrop :
                  ((db.payment_items ++
                    (db.order_items.filter
                      (fun oi => oi.order_id == order_id)).map
                        (fun oi =>
                          ({ payment_id := fresh_payment_id,
                             order_item_id := oi.id,
                             price_at_payment :=
                               oi.price_at_order } : PaymentItem))).drop
                    db.payment_items.length) =
                  (db.order_items.filter
                    (fun oi => oi.order_id == order_id)).map
                      (fun oi =>
                        ({ payment_id := fresh_payment_id,
                           order_item_id := oi.id,
                           price_at_payment :=
                             oi.price_at_order } : PaymentItem)) := by simp
              rw [hdrop]
              exact forall2_map_left _ _ _ (fun oi => ⟨rfl, rfl, rfl⟩)

/-- C4 (witness): concrete application of `create_payments_spec` to the
successful run on `exDB4`. -/
theorem create_payments_spec_witness :
    exPayment4.status = PaymentStatus.canceled ∧
    exPayment4.external_payment_id = "pi_1" := by
  have h := create_payments_spec exDB4 exUser4 1 true
    (StripeResult.intent "pi_1") 50 9 exDB4ok exPayment4 rfl
  exact ⟨h.1, h.2.1 "pi_1" rfl⟩

/-- C1: when the user's cart is non-empty and every check passes (each movie
exists, none is in a paid or pending order of the user), `create_order`
succeeds with a pending order whose `total_amount` is the sum of the cart
movies' current prices, appends exactly one order item per cart item
snapshotting `price_at_order`, keeps the cart row, empties the cart items,
and a later catalog price change leaves the stored order and its items
untouched. -/
theorem create_order_spec (db : DB)
    (user_id fresh_order_id fresh_item_id now : Nat) (cart : Cart)
    (hcart : db.carts.find? (fun c => c.user_id == user_id) = some cart)
    (hne : db.cart_items.filter (fun ci => ci.cart_id == cart.id) ≠ [])
    (hchecks : ∀ ci ∈ db.cart_items.filter
        (fun ci2 => ci2.cart_id == cart.id),
      (find_movie db ci.movie_id).isSome = true ∧
      has_order_item_with_status db user_id ci.movie_id
        OrderStatus.paid = false ∧
      has_order_item_with_status db user_id ci.movie_id
        OrderStatus.pending = false) :
    ∃ db' new_order,
      create_order db user_id fresh_order_id fresh_item_id now =
        Except.ok (db', new_order) ∧
      new_order.status = OrderStatus.pending ∧
      new_order.total_amount =
        ((db.cart_items.filter (fun ci => ci.cart_id == cart.id)).map
          (fun ci => movie_price db ci.movie_id)).sum ∧
      db'.order_items.take db.order_items.length = db.order_items ∧
      List.Forall₂ (fun (oi : OrderItem) (ci : CartItem) =>
          oi.order_id = fresh_order_id ∧ oi.movie_id = ci.movie_id ∧
          oi.price_at_order = movie_price db ci.movie_id)
        (db'.order_items.drop db.order_items.length)
        (db.cart_items.filter (fun ci => ci.cart_id == cart.id)) ∧
      cart ∈ db'.carts ∧
      db'.cart_items.filter (fun ci => ci.cart_id == cart.id) = [] ∧
      (∀ movie_id new_price,
        (update_movie_price db' movie_id new_price).orders = db'.orders ∧
        (update_movie_price db' movie_id new_price).order_items =
          db'.order_items) := by
  have hcki : ∀ ci ∈ db.cart_items.filter
      (fun ci2 => ci2.cart_id == cart.id),
      check_cart_item db user_id ci = none := by
    intro ci hci
    obtain ⟨h1, h2, h3⟩ := hchecks ci hci
    cases hm : find_movie db ci.movie_id with
    | none => rw [hm] at h1; simp at h1
    | some m => simp [check_cart_item, hm, h2, h3]
  have hchk := check_cart_items_eq_none db user_id _ hcki
  refine ⟨{ db with
      orders := db.orders ++
        [{ id := fresh_order_id, user_id := user_id, created_at := now,
           status := OrderStatus.pending,
           total_amount :=
             ((db.cart_items.filter (fun ci => ci.cart_id == cart.id)).map
               (fun ci => movie_price db ci.movie_id)).sum }],
      order_items := db.order_items ++
        (db.cart_items.filter (fun ci => ci.cart_id == cart.id)).enum.map
          (fun p =>
            ({ id := fresh_item_id + p.1, order_id := fresh_order_id,
               movie_id := p.2.movie_id,
               price_at_order :=
                 movie_price db p.2.movie_id } : OrderItem)),
      cart_items :=
        db.cart_items.filter (fun ci => !(ci.cart_id == cart.id)) },
    { id := fresh_order_id, user_id := user_id, created_at := now,
      status := OrderStatus.pending,
      total_amount :=
        ((db.cart_items.filter (fun ci => ci.cart_id == cart.id)).map
          (fun ci => movie_price db ci.movie_id)).sum },
    ?_, rfl, rfl, by simp, ?_, List.mem_of_find?_eq_some hcart,
    filter_not_filter _ _, fun movie_id new_price => ⟨rfl, rfl⟩⟩
  · simp [create_order, hcart, hne, hchk]
  · have hdrop :
        ((db.order_items ++
          (db.cart_items.filter (fun ci => ci.cart_id == cart.id)).enum.map
            (fun p =>
              ({ id := fresh_item_id + p.1, order_id := fresh_order_id,
                 movie_id := p.2.movie_id,
                 price_at_order :=
                   movie_price db p.2.movie_id } : OrderItem))).drop
          db.order_items.length) =
        (db.cart_items.filter (fun ci => ci.cart_id == cart.id)).enum.map
          (fun p =>
            ({ id := fresh_item_id + p.1, order_id := fresh_order_id,
               movie_id := p.2.movie_id,
               price_at_order :=
                 movie_price db p.2.movie_id } : OrderItem)) := by simp
    rw [hdrop]
    exact forall2_enumFrom_map _ _ (fun i x => ⟨rfl, rfl, rfl⟩) 0 _

/-- C1 (witness): concrete application of `create_order_spec` to `exDB1`. -/
theorem create_order_spec_witness :
    ∃ p : DB × Order,
      create_order exDB1 7 100 200 5 = Except.ok p ∧
      p.2.status = OrderStatus.pending ∧
      p.2.total_amount = 1050 := by
  obtain ⟨db', o, h1, h2, h3, -, -, -, -, -⟩ :=
    create_order_spec exDB1 7 100 200 5 exCart1 rfl (by decide) (by decide)
  refine ⟨(db', o), h1, h2, ?_⟩
  rw [h3]
  rfl

end OnlineCinema
